import Mathlib

/-
Shallow embedding of the credit-gated image-generation workflow of
supabase/functions/generate-image/index.ts.

The handler is sequential request/response glue: authenticate, read the
credit balance, validate the prompt, admission-check the balance against
the requested image count, enrich the prompt with a style suffix, call
the provider once per requested image (writing one history row per
success), settle the balance, and respond.  External collaborators
(auth service, profile store, provider, history store) are modelled as
an environment record; the handler is a pure function from that
environment to a response paired with the side effects it performed.
-/

namespace NexusGen

/-- Result of one provider fetch: the HTTP status and the image reference
extracted from the body at choices[0].message.images[0].image_url.url
(none when that path is absent). -/
structure ProviderResult where
  status : Nat
  imageUrl : Option String
deriving Repr, DecidableEq

/-- JS Response.ok: status in the range 200..299. -/
def ProviderResult.ok (r : ProviderResult) : Bool :=
  decide (200 ≤ r.status) && decide (r.status < 300)

/-- A JSON/JS value as far as the prompt field is concerned: the handler
distinguishes strings from everything else and tests JS falsiness. -/
inductive JsVal where
  | vstr (s : String)
  | vnum (n : Int)
  | vbool (b : Bool)
  | vnull
  | vundefined
deriving Repr, DecidableEq

/-- JS falsiness of the modelled values: "", 0, false, null, undefined. -/
def JsVal.falsy : JsVal → Bool
  | .vstr s => decide (s = "")
  | .vnum n => decide (n = 0)
  | .vbool b => !b
  | .vnull => true
  | .vundefined => true

/-- typeof v === "string". -/
def JsVal.isString : JsVal → Bool
  | .vstr _ => true
  | _ => false

/-- The string payload of a string value (only used after isString holds). -/
def JsVal.asString : JsVal → String
  | .vstr s => s
  | _ => ""

/-- Length of s.trim(): both ends stripped of whitespace.  (JS trims a
slightly larger whitespace class than Char.isWhitespace; the difference
is irrelevant to ASCII prompts.) -/
def trimmedLength (s : String) : Nat :=
  ((s.toList.dropWhile Char.isWhitespace).reverse.dropWhile Char.isWhitespace).length

/-- Line 58: !prompt || typeof prompt !== "string" || prompt.trim().length === 0. -/
def invalidPrompt (p : JsVal) : Bool :=
  p.falsy || !p.isString || decide (trimmedLength p.asString = 0)

/-- The request body after req.json(): prompt as a JS value (vundefined
when the field is absent), and the three optional parameters whose
destructuring defaults are "1:1", 1 and "auto" (line 56). -/
structure RequestBody where
  prompt : JsVal := .vundefined
  aspectParam : Option String := none
  numImages : Option Int := none
  style : Option String := none

/-- One row inserted into the generations table (lines 143-150). -/
structure HistoryRow where
  user_id : String
  prompt : String
  image_url : String
  aspectCol : String
  style : String
  credits_used : Int
deriving Repr, DecidableEq

/-- The environment of one request: the answers of the external collaborators.
authHeader is the Authorization header (none when absent); userForToken
is what the auth service resolves the token to (none when getUser errors
or returns no user); profileCredits is the profiles.credits read (none
when the read errors); provider gives the result of the i-th provider
call; updateFails says whether the balance-settling write errors. -/
structure Env where
  authHeader : Option String
  userForToken : Option String
  profileCredits : Option Int
  body : RequestBody
  provider : Nat → ProviderResult
  updateFails : Bool

/-- The three response shapes the handler can produce. -/
inductive HandlerResult where
  | success (imageUrls : List String)
  | insufficientCredits
  | errorResp (msg : String)
deriving Repr, DecidableEq

/-- HTTP status of each response: success responses carry no explicit
status (200), the admission failure is 402 (line 68), and the catch
block maps message "Unauthorized" to 401 and everything else to 500
(line 177). -/
def responseStatus : HandlerResult → Nat
  | .success _ => 200
  | .insufficientCredits => 402
  | .errorResp msg => if msg = "Unauthorized" then 401 else 500

/-- JSON body of each response: imageUrls on success, an error object
otherwise (lines 66, 167, 175). -/
inductive RespBody where
  | jsonUrls (urls : List String)
  | jsonError (msg : String)
deriving Repr, DecidableEq

/-- The serialized response body. -/
def responseBody : HandlerResult → RespBody
  | .success urls => .jsonUrls urls
  | .insufficientCredits => .jsonError "Insufficient credits"
  | .errorResp msg => .jsonError msg

/-- The side effects one request performed: whether the balance was read,
the prompt sent on each provider call in order, the history rows written
in order, and the value the settle step attempted to write to
profiles.credits (none when the settle step was never reached). -/
structure Effects where
  balanceRead : Bool
  providerPrompts : List String
  history : List HistoryRow
  balanceWriteAttempt : Option Int
deriving Repr, DecidableEq

/-- Effects of a request that aborted before its first provider call. -/
def noCallEffects (read : Bool) : Effects :=
  { balanceRead := read, providerPrompts := [], history := [],
    balanceWriteAttempt := none }

/-- Lines 120-127: classification of a non-2xx provider status into a
thrown error message. -/
def classifyFailure (status : Nat) : String :=
  if status = 429 then "Rate limit exceeded. Please try again later."
  else if status = 402 then "AI service credits exhausted. Please contact support."
  else "Failed to generate image"

/-- Lines 79-85: the fixed style-to-suffix mapping. -/
def stylePrompts : String → Option String
  | "photorealistic" => some "photorealistic, highly detailed, 8k resolution"
  | "anime" => some "anime style, vibrant colors, clean lines"
  | "digital-art" => some "digital art, concept art, artstation trending"
  | "3d-render" => some "3D render, octane render, realistic materials"
  | "oil-painting" => some "oil painting style, impressionist, artistic brushstrokes"
  | _ => none

/-- Lines 76-87: the prompt actually sent to the provider. -/
def enhancedPrompt (prompt style : String) : String :=
  if style ≠ "auto" then prompt ++ ", " ++ (stylePrompts style).getD ""
  else prompt

/-- Outcome of the generation loop: either every requested image
succeeded (the collected urls, the rows written, the number of provider
calls), or some call threw (the message, the rows already written, the
number of calls made including the failing one).  On failure the urls
pushed so far are discarded by the catch block. -/
inductive LoopOutcome where
  | allOk (urls : List String) (rows : List HistoryRow) (calls : Nat)
  | failed (msg : String) (rows : List HistoryRow) (calls : Nat)
deriving Repr, DecidableEq

/-- Lines 92-151: the generation loop, run with loop index i and
remaining iteration count.  Each iteration calls the provider; a non-ok
status throws by classifyFailure, an ok status with no extractable image
url throws "No image generated", and a success pushes the url and
inserts one history row (recording the original prompt and
credits_used = 1) before the next iteration. -/
def genLoop (provider : Nat → ProviderResult) (uid p st ar : String) :
    Nat → Nat → LoopOutcome
  | _, 0 => .allOk [] [] 0
  | i, k + 1 =>
    let r := provider i
    if r.ok then
      match r.imageUrl with
      | some url =>
        let row : HistoryRow :=
          { user_id := uid, prompt := p, image_url := url,
            aspectCol := ar, style := st, credits_used := 1 }
        match genLoop provider uid p st ar (i + 1) k with
        | .allOk urls rows c => .allOk (url :: urls) (row :: rows) (c + 1)
        | .failed m rows c => .failed m (row :: rows) (c + 1)
      | none => .failed "No image generated" [] 1
    else
      .failed (classifyFailure r.status) [] 1

/-- The request handler (the body of serve, lines 16-181), as a pure
function from the environment to the response and the effects
performed.  The try/catch is modelled by the aborting branches
returning errorResp directly. -/
def handler (env : Env) : HandlerResult × Effects :=
  match env.authHeader with
  | none => (.errorResp "No authorization header", noCallEffects false)
  | some h =>
    if h = "" then (.errorResp "No authorization header", noCallEffects false)
    else
      match env.userForToken with
      | none => (.errorResp "Unauthorized", noCallEffects false)
      | some uid =>
        match env.profileCredits with
        | none => (.errorResp "Failed to fetch profile", noCallEffects true)
        | some credits =>
          let prompt := env.body.prompt
          let aspectParam := (env.body.aspectParam).getD "1:1"
          let numImages := (env.body.numImages).getD 1
          let style := (env.body.style).getD "auto"
          if invalidPrompt prompt then
            (.errorResp "Invalid prompt", noCallEffects true)
          else
            let creditsRequired := numImages
            if credits < creditsRequired then
              (.insufficientCredits, noCallEffects true)
            else
              let pstr := prompt.asString
              let sent := enhancedPrompt pstr style
              match genLoop env.provider uid pstr style aspectParam 0 numImages.toNat with
              | .failed msg rows calls =>
                (.errorResp msg,
                 { balanceRead := true,
                   providerPrompts := List.replicate calls sent,
                   history := rows, balanceWriteAttempt := none })
              | .allOk urls rows calls =>
                (.success urls,
                 { balanceRead := true,
                   providerPrompts := List.replicate calls sent,
                   history := rows,
                   balanceWriteAttempt := some (credits - creditsRequired) })

/-- The balance after the request: the settle step writes
balanceWriteAttempt, but a failing write leaves the stored balance
unchanged (lines 159-164). -/
def settledBalance (credits : Int) (eff : Effects) (updateFails : Bool) : Int :=
  match eff.balanceWriteAttempt with
  | some v => if updateFails then credits else v
  | none => credits

/-- The history row the i-th successful provider call inserts. -/
def rowAt (provider : Nat → ProviderResult) (uid p st ar : String) (i : Nat) :
    HistoryRow :=
  { user_id := uid, prompt := p,
    image_url := (provider i).imageUrl.getD "",
    aspectCol := ar, style := st, credits_used := 1 }

/-- The message thrown by a failing provider call: classifyFailure of the
status for a non-ok response, "No image generated" for an ok response
with no extractable url. -/
def failMsg (r : ProviderResult) : String :=
  if r.ok then "No image generated" else classifyFailure r.status

/-- A provider call that throws: either a non-2xx status or a 2xx body
with no extractable image url. -/
def callFails (r : ProviderResult) : Prop :=
  r.ok = false ∨ r.imageUrl = none

/-- A provider that always answers 200 with an image url. -/
def alwaysOkProvider : Nat → ProviderResult :=
  fun _ => { status := 200, imageUrl := some "u" }

/-- A request environment for the happy path: two images requested,
balance 5, every provider call succeeds, the settle write succeeds. -/
def envHappy : Env :=
  { authHeader := some "Bearer t", userForToken := some "uid",
    profileCredits := some 5,
    body := { prompt := .vstr "a cat", aspectParam := none,
              numImages := some 2, style := none },
    provider := alwaysOkProvider, updateFails := false }

/-- Like envHappy but the balance-settling write fails. -/
def envSettleFails : Env :=
  { authHeader := some "Bearer t", userForToken := some "uid",
    profileCredits := some 5,
    body := { prompt := .vstr "a cat", aspectParam := none,
              numImages := some 2, style := none },
    provider := alwaysOkProvider, updateFails := true }

/-- Balance 0 against the default request of one image. -/
def envBroke : Env :=
  { authHeader := some "Bearer t", userForToken := some "uid",
    profileCredits := some 0,
    body := { prompt := .vstr "a cat", aspectParam := none,
              numImages := none, style := none },
    provider := alwaysOkProvider, updateFails := false }

/-- The Authorization header is absent. -/
def envAbsentHeader : Env :=
  { authHeader := none, userForToken := none, profileCredits := none,
    body := {}, provider := alwaysOkProvider, updateFails := false }

/-- The header is present but the token does not resolve to a user. -/
def envBadToken : Env :=
  { authHeader := some "Bearer bad", userForToken := none,
    profileCredits := none, body := {},
    provider := alwaysOkProvider, updateFails := false }

/-- Three images requested; the second provider call answers 429. -/
def envFailMid : Env :=
  { authHeader := some "Bearer t", userForToken := some "uid",
    profileCredits := some 5,
    body := { prompt := .vstr "a cat", aspectParam := none,
              numImages := some 3, style := none },
    provider := fun i =>
      if i = 0 then { status := 200, imageUrl := some "u" }
      else { status := 429, imageUrl := none },
    updateFails := false }

/-- Two images requested; the second provider call answers 200 with no
extractable image url. -/
def envNoUrlMid : Env :=
  { authHeader := some "Bearer t", userForToken := some "uid",
    profileCredits := some 5,
    body := { prompt := .vstr "a cat", aspectParam := none,
              numImages := some 2, style := none },
    provider := fun i =>
      if i = 0 then { status := 200, imageUrl := some "u" }
      else { status := 200, imageUrl := none },
    updateFails := false }

/-- A whitespace-only prompt. -/
def envBlankPrompt : Env :=
  { authHeader := some "Bearer t", userForToken := some "uid",
    profileCredits := some 5,
    body := { prompt := .vstr "   ", aspectParam := none,
              numImages := some 1, style := none },
    provider := alwaysOkProvider, updateFails := false }

/-- Zero images requested. -/
def envZeroImages : Env :=
  { authHeader := some "Bearer t", userForToken := some "uid",
    profileCredits := some 5,
    body := { prompt := .vstr "a cat", aspectParam := none,
              numImages := some 0, style := none },
    provider := alwaysOkProvider, updateFails := false }

/-- Minus one image requested. -/
def envNegImages : Env :=
  { authHeader := some "Bearer t", userForToken := some "uid",
    profileCredits := some 5,
    body := { prompt := .vstr "a cat", aspectParam := none,
              numImages := some (-1), style := none },
    provider := alwaysOkProvider, updateFails := false }

/-- One image requested in the anime style. -/
def envAnime : Env :=
  { authHeader := some "Bearer t", userForToken := some "uid",
    profileCredits := some 5,
    body := { prompt := .vstr "a cat", aspectParam := none,
              numImages := some 1, style := some "anime" },
    provider := alwaysOkProvider, updateFails := false }

/-- When every one of the n calls starting at index start returns ok with
an image url, the loop completes with the urls and rows of calls
start..start+n-1 in order. -/
theorem genLoop_allOk (provider : Nat → ProviderResult) (uid p st ar : String) :
    ∀ (n start : Nat),
    (∀ i, i < n → ((provider (start + i)).ok = true ∧
        ((provider (start + i)).imageUrl).isSome = true)) →
    genLoop provider uid p st ar start n =
      .allOk ((List.range n).map (fun i => ((provider (start + i)).imageUrl).getD ""))
             ((List.range n).map (fun i => rowAt provider uid p st ar (start + i)))
             n := by
  intro n
  induction n with
  | zero =>
    intro start h
    simp [genLoop]
  | succ k ih =>
    intro start h
    have h0 := h 0 (Nat.succ_pos k)
    rw [Nat.add_zero] at h0
    obtain ⟨url, hurl⟩ := Option.isSome_iff_exists.mp h0.2
    have hrec := ih (start + 1) (fun i hi => by
      have := h (i + 1) (Nat.succ_lt_succ hi)
      rwa [show start + (i + 1) = start + 1 + i by omega] at this)
    simp only [genLoop, h0.1, if_true, hurl]
    rw [hrec]
    simp only [List.range_succ_eq_map, List.map_cons, List.map_map]
    congr 1
    · congr 1
      · rw [Nat.add_zero, hurl]
        rfl
      · apply List.map_congr_left
        intro i _
        simp only [Function.comp]
        rw [show start + 1 + i = start + (i + 1) by omega]
    · congr 1
      · rw [Nat.add_zero]
        simp [rowAt, hurl]
      · apply List.map_congr_left
        intro i _
        simp only [Function.comp]
        rw [show start + 1 + i = start + (i + 1) by omega]

/-- When the calls at indices start..start+j-1 succeed and the call at
index start+j throws (with j within the iteration bound), the loop
aborts: the j rows already written remain, exactly j+1 calls were made,
and the thrown message is failMsg of the failing call. -/
theorem genLoop_fail (provider : Nat → ProviderResult) (uid p st ar : String) :
    ∀ (j n start : Nat), j < n →
    (∀ i, i < j → ((provider (start + i)).ok = true ∧
        ((provider (start + i)).imageUrl).isSome = true)) →
    callFails (provider (start + j)) →
    genLoop provider uid p st ar start n =
      .failed (failMsg (provider (start + j)))
              ((List.range j).map (fun i => rowAt provider uid p st ar (start + i)))
              (j + 1) := by
  intro j
  induction j with
  | zero =>
    intro n start hn hpre hfail
    obtain ⟨m, rfl⟩ : ∃ m, n = m + 1 := ⟨n - 1, by omega⟩
    rw [Nat.add_zero] at hfail
    rcases hfail with hok | hurl
    · simp [genLoop, hok, failMsg]
    · rcases hok : (provider start).ok with _ | _
      · simp [genLoop, hok, failMsg]
      · simp [genLoop, hok, hurl, failMsg]
  | succ k ih =>
    intro n start hn hpre hfail
    obtain ⟨m, rfl⟩ : ∃ m, n = m + 1 := ⟨n - 1, by omega⟩
    have h0 := hpre 0 (Nat.succ_pos k)
    rw [Nat.add_zero] at h0
    obtain ⟨url, hurl⟩ := Option.isSome_iff_exists.mp h0.2
    have hrec := ih m (start + 1) (by omega)
      (fun i hi => by
        have := hpre (i + 1) (Nat.succ_lt_succ hi)
        rwa [show start + (i + 1) = start + 1 + i by omega] at this)
      (by rwa [show start + 1 + k = start + (k + 1) by omega])
    simp only [genLoop, h0.1, if_true, hurl]
    rw [hrec]
    simp only [List.range_succ_eq_map, List.map_cons, List.map_map]
    congr 1
    · rw [show start + 1 + k = start + (k + 1) by omega]
    · congr 1
      · rw [Nat.add_zero]
        simp [rowAt, hurl]
      · apply List.map_congr_left
        intro i _
        simp only [Function.comp]
        rw [show start + 1 + i = start + (i + 1) by omega]

/-- Once a request passes authentication, the profile read, the prompt
validation and the admission check, the handler is determined by the
generation loop. -/
theorem handler_admitted (env : Env) (a uid : String) (credits n : Int) (p : String)
    (ha : env.authHeader = some a) (hne : ¬ a = "")
    (hu : env.userForToken = some uid)
    (hc : env.profileCredits = some credits)
    (hp : env.body.prompt = .vstr p)
    (hv : invalidPrompt (.vstr p) = false)
    (hn : (env.body.numImages).getD 1 = n)
    (hadm : ¬ credits < n) :
    handler env =
      match genLoop env.provider uid p ((env.body.style).getD "auto")
          ((env.body.aspectParam).getD "1:1") 0 n.toNat with
      | .failed msg rows calls =>
        (.errorResp msg,
         { balanceRead := true,
           providerPrompts :=
             List.replicate calls (enhancedPrompt p ((env.body.style).getD "auto")),
           history := rows, balanceWriteAttempt := none })
      | .allOk urls rows calls =>
        (.success urls,
         { balanceRead := true,
           providerPrompts :=
             List.replicate calls (enhancedPrompt p ((env.body.style).getD "auto")),
           history := rows,
           balanceWriteAttempt := some (credits - n) }) := by
  simp only [handler, ha, hu, hc, hp, hn, JsVal.asString]
  rw [if_neg hne]
  simp only [hv, Bool.false_eq_true, if_false]
  rw [if_neg hadm]

/-- C1: for every request with a valid bearer credential, a valid
non-empty prompt, balance at least numImages, every provider call
succeeding and the settle write succeeding, the handler writes exactly
numImages history rows in generation order (each recording the original
prompt and credits_used = 1), decrements the balance by exactly
numImages, and returns a success response whose imageUrls list contains
exactly numImages references in generation order. -/
theorem generation_happy_path (env : Env) (a uid : String) (credits n : Int) (p : String)
    (ha : env.authHeader = some a) (hne : ¬ a = "")
    (hu : env.userForToken = some uid)
    (hc : env.profileCredits = some credits)
    (hp : env.body.prompt = .vstr p)
    (hv : invalidPrompt (.vstr p) = false)
    (hn : (env.body.numImages).getD 1 = n) (hn0 : 0 ≤ n)
    (hbal : n ≤ credits)
    (hprov : ∀ i, i < n.toNat → ((env.provider i).ok = true ∧
        ((env.provider i).imageUrl).isSome = true))
    (hupd : env.updateFails = false) :
    (handler env).1 = .success
        ((List.range n.toNat).map (fun i => ((env.provider i).imageUrl).getD ""))
    ∧ (handler env).2.history = (List.range n.toNat).map
        (rowAt env.provider uid p ((env.body.style).getD "auto")
          ((env.body.aspectParam).getD "1:1"))
    ∧ (handler env).2.history.length = n.toNat
    ∧ (∀ row ∈ (handler env).2.history, row.prompt = p ∧ row.credits_used = 1)
    ∧ (handler env).2.providerPrompts.length = n.toNat
    ∧ (handler env).2.balanceWriteAttempt = some (credits - n)
    ∧ settledBalance credits (handler env).2 env.updateFails = credits - n := by
  have hloop := genLoop_allOk env.provider uid p ((env.body.style).getD "auto")
      ((env.body.aspectParam).getD "1:1") n.toNat 0
      (by simpa using hprov)
  simp only [Nat.zero_add] at hloop
  rw [handler_admitted env a uid credits n p ha hne hu hc hp hv hn (by omega)]
  rw [hloop]
  refine ⟨rfl, rfl, by simp, ?_, by simp, rfl, ?_⟩
  · intro row hrow
    simp only [List.mem_map, List.mem_range] at hrow
    obtain ⟨i, _, hi⟩ := hrow
    rw [← hi]
    exact ⟨rfl, rfl⟩
  · simp [settledBalance, hupd]

/-- Witness for generation_happy_path at envHappy: two images are
returned, two rows are written, and the balance 5 settles to 3. -/
theorem generation_happy_path_witness :
    (handler envHappy).1 = .success
        ((List.range (Int.toNat 2)).map
          (fun i => ((envHappy.provider i).imageUrl).getD ""))
    ∧ settledBalance 5 (handler envHappy).2 envHappy.updateFails = 5 - 2 := by
  have h := generation_happy_path envHappy "Bearer t" "uid" 5 2 "a cat"
    rfl (by decide) rfl rfl rfl (by decide) rfl (by decide) (by decide)
    (fun i _ => ⟨rfl, rfl⟩) rfl
  exact ⟨h.1, h.2.2.2.2.2.2⟩

/-- C2: a request that reaches the admission check with balance strictly
below the requested image count (default 1) gets the distinguished 402
response with body error "Insufficient credits", with no provider call,
no history row, and the balance untouched. -/
theorem insufficient_credits_rejected (env : Env) (a uid : String) (credits n : Int)
    (ha : env.authHeader = some a) (hne : ¬ a = "")
    (hu : env.userForToken = some uid)
    (hc : env.profileCredits = some credits)
    (hv : invalidPrompt env.body.prompt = false)
    (hn : (env.body.numImages).getD 1 = n)
    (hlow : credits < n) :
    (handler env).1 = .insufficientCredits
    ∧ responseStatus (handler env).1 = 402
    ∧ responseBody (handler env).1 = .jsonError "Insufficient credits"
    ∧ (handler env).2.providerPrompts = []
    ∧ (handler env).2.history = []
    ∧ (handler env).2.balanceWriteAttempt = none
    ∧ settledBalance credits (handler env).2 env.updateFails = credits := by
  have hstep : handler env = (.insufficientCredits, noCallEffects true) := by
    simp only [handler, ha, hu, hc, hn]
    rw [if_neg hne]
    simp only [hv, Bool.false_eq_true, if_false]
    rw [if_pos hlow]
  rw [hstep]
  exact ⟨rfl, rfl, rfl, rfl, rfl, rfl, rfl⟩

/-- Witness for insufficient_credits_rejected at envBroke: balance 0
against the default request of one image yields the 402 outcome with no
side effects. -/
theorem insufficient_credits_rejected_witness :
    (handler envBroke).1 = .insufficientCredits
    ∧ responseStatus (handler envBroke).1 = 402
    ∧ (handler envBroke).2.providerPrompts = []
    ∧ (handler envBroke).2.history = []
    ∧ settledBalance 0 (handler envBroke).2 envBroke.updateFails = 0 := by
  have h := insufficient_credits_rejected envBroke "Bearer t" "uid" 0 1
    rfl (by decide) rfl rfl (by decide) rfl (by decide)
  exact ⟨h.1, h.2.1, h.2.2.2.1, h.2.2.2.2.1, h.2.2.2.2.2.2⟩

/-- C3: when the calls at 0-based indices 0..j-1 succeed and the call at
index j throws (the 1-based k of the claim is j+1), the loop aborts: the j
rows already written remain in history, exactly j+1 provider calls were
made, the response is an error whose body carries no image references,
and the balance is untouched (the settle step is never reached). -/
theorem provider_failure_aborts (env : Env) (a uid : String) (credits n : Int)
    (p : String) (j : Nat)
    (ha : env.authHeader = some a) (hne : ¬ a = "")
    (hu : env.userForToken = some uid)
    (hc : env.profileCredits = some credits)
    (hp : env.body.prompt = .vstr p)
    (hv : invalidPrompt (.vstr p) = false)
    (hn : (env.body.numImages).getD 1 = n)
    (hbal : n ≤ credits)
    (hj : j < n.toNat)
    (hpre : ∀ i, i < j → ((env.provider i).ok = true ∧
        ((env.provider i).imageUrl).isSome = true))
    (hfail : callFails (env.provider j)) :
    (handler env).1 = .errorResp (failMsg (env.provider j))
    ∧ responseBody (handler env).1 = .jsonError (failMsg (env.provider j))
    ∧ (handler env).2.history = (List.range j).map
        (rowAt env.provider uid p ((env.body.style).getD "auto")
          ((env.body.aspectParam).getD "1:1"))
    ∧ (handler env).2.history.length = j
    ∧ (handler env).2.providerPrompts.length = j + 1
    ∧ (handler env).2.balanceWriteAttempt = none
    ∧ settledBalance credits (handler env).2 env.updateFails = credits := by
  have hloop := genLoop_fail env.provider uid p ((env.body.style).getD "auto")
      ((env.body.aspectParam).getD "1:1") j n.toNat 0 hj
      (by simpa using hpre) (by simpa using hfail)
  simp only [Nat.zero_add] at hloop
  rw [handler_admitted env a uid credits n p ha hne hu hc hp hv hn (by omega)]
  rw [hloop]
  exact ⟨rfl, rfl, rfl, by simp, by simp, rfl, rfl⟩

/-- Witness for provider_failure_aborts at envFailMid: of three requested
images the second call answers 429, so one history row remains, two
calls were made, the response is the rate-limit error, and the balance
5 is untouched. -/
theorem provider_failure_aborts_witness :
    (handler envFailMid).1 = .errorResp (failMsg (envFailMid.provider 1))
    ∧ (handler envFailMid).2.history.length = 1
    ∧ (handler envFailMid).2.providerPrompts.length = 2
    ∧ settledBalance 5 (handler envFailMid).2 envFailMid.updateFails = 5 := by
  have h := provider_failure_aborts envFailMid "Bearer t" "uid" 5 3 "a cat" 1
    rfl (by decide) rfl rfl rfl (by decide) rfl (by decide) (by decide)
    (by decide) (Or.inl rfl)
  exact ⟨h.1, h.2.2.2.1, h.2.2.2.2.1, h.2.2.2.2.2.2⟩

/-- C4 as amended: a request whose authorization header is absent (or
present but empty) is rejected with message "No authorization header"
and HTTP status 500, while a request whose header is non-empty but
whose token does not resolve to an identity is rejected with message
"Unauthorized" and HTTP status 401; in both cases no balance read,
provider call, history write or balance write has happened. -/
theorem auth_failure_short_circuit (env : Env)
    (h : env.authHeader.getD "" = "" ∨ env.userForToken = none) :
    (handler env).1 = .errorResp
        (if env.authHeader.getD "" = "" then "No authorization header"
         else "Unauthorized")
    ∧ responseStatus (handler env).1 =
        (if env.authHeader.getD "" = "" then 500 else 401)
    ∧ (handler env).2 = noCallEffects false := by
  rcases henv : env.authHeader with _ | a
  · have hstep : handler env = (.errorResp "No authorization header", noCallEffects false) := by
      simp only [handler, henv]
    rw [hstep]
    exact ⟨rfl, rfl, rfl⟩
  · by_cases ha : a = ""
    · subst ha
      have hstep : handler env = (.errorResp "No authorization header", noCallEffects false) := by
        simp [handler, henv]
      rw [hstep]
      exact ⟨rfl, rfl, rfl⟩
    · have hu : env.userForToken = none := by
        rcases h with h | h
        · rw [henv] at h
          simp only [Option.getD] at h
          exact absurd h ha
        · exact h
      have hstep : handler env = (.errorResp "Unauthorized", noCallEffects false) := by
        simp only [handler, henv, hu]
        rw [if_neg ha]
      rw [hstep]
      have hcond : ¬ ((some a).getD "" = "") := by simpa [Option.getD] using ha
      rw [if_neg hcond, if_neg hcond]
      exact ⟨rfl, rfl, rfl⟩

/-- Witness for auth_failure_short_circuit at envBadToken: a header that
does not resolve to an identity yields "Unauthorized" with status 401
and no side effects. -/
theorem auth_failure_short_circuit_witness :
    (handler envBadToken).1 = .errorResp
        (if envBadToken.authHeader.getD "" = "" then "No authorization header"
         else "Unauthorized")
    ∧ responseStatus (handler envBadToken).1 =
        (if envBadToken.authHeader.getD "" = "" then 500 else 401)
    ∧ (handler envBadToken).2 = noCallEffects false :=
  auth_failure_short_circuit envBadToken (Or.inr rfl)

/-- Counterexample to C4 as stated: with the authorization header absent
the handler throws "No authorization header", which the catch block
maps to status 500, not 401. -/
theorem auth_absent_header_not_401 :
    envAbsentHeader.authHeader = none
    ∧ responseStatus (handler envAbsentHeader).1 = 500
    ∧ ¬ responseStatus (handler envAbsentHeader).1 = 401 := by
  exact ⟨rfl, rfl, by decide⟩

/-- C5: when every provider call succeeds but the balance-settling write
fails, the handler still returns the full success response, the stored
balance is unchanged, and the write failure is not surfaced in the
response. -/
theorem billing_failure_swallowed (env : Env) (a uid : String) (credits n : Int)
    (p : String)
    (ha : env.authHeader = some a) (hne : ¬ a = "")
    (hu : env.userForToken = some uid)
    (hc : env.profileCredits = some credits)
    (hp : env.body.prompt = .vstr p)
    (hv : invalidPrompt (.vstr p) = false)
    (hn : (env.body.numImages).getD 1 = n)
    (hbal : n ≤ credits)
    (hprov : ∀ i, i < n.toNat → ((env.provider i).ok = true ∧
        ((env.provider i).imageUrl).isSome = true))
    (hupd : env.updateFails = true) :
    (handler env).1 = .success
        ((List.range n.toNat).map (fun i => ((env.provider i).imageUrl).getD ""))
    ∧ responseStatus (handler env).1 = 200
    ∧ responseBody (handler env).1 = .jsonUrls
        ((List.range n.toNat).map (fun i => ((env.provider i).imageUrl).getD ""))
    ∧ (handler env).2.balanceWriteAttempt = some (credits - n)
    ∧ settledBalance credits (handler env).2 env.updateFails = credits := by
  have hloop := genLoop_allOk env.provider uid p ((env.body.style).getD "auto")
      ((env.body.aspectParam).getD "1:1") n.toNat 0
      (by simpa using hprov)
  simp only [Nat.zero_add] at hloop
  rw [handler_admitted env a uid credits n p ha hne hu hc hp hv hn (by omega)]
  rw [hloop]
  exact ⟨rfl, rfl, rfl, rfl, by simp [settledBalance, hupd]⟩

/-- Witness for billing_failure_swallowed at envSettleFails: the two
image references are returned with status 200 while the balance 5
stays 5. -/
theorem billing_failure_swallowed_witness :
    (handler envSettleFails).1 = .success
        ((List.range (Int.toNat 2)).map
          (fun i => ((envSettleFails.provider i).imageUrl).getD ""))
    ∧ responseStatus (handler envSettleFails).1 = 200
    ∧ settledBalance 5 (handler envSettleFails).2 envSettleFails.updateFails = 5 := by
  have h := billing_failure_swallowed envSettleFails "Bearer t" "uid" 5 2 "a cat"
    rfl (by decide) rfl rfl rfl (by decide) rfl (by decide)
    (fun i _ => ⟨rfl, rfl⟩) rfl
  exact ⟨h.1, h.2.1, h.2.2.2.2⟩

/-- C6: the first throwing provider call (at 0-based index j, after j
successes) is classified by its status: 429 throws the rate-limit
message, 402 the provider-quota message, any other non-2xx status the
generic generation-failure message, and a 2xx response with no
extractable image url the no-image message; in every case the request
aborts after that call with no balance write. -/
theorem provider_failure_classified (env : Env) (a uid : String) (credits n : Int)
    (p : String) (j : Nat)
    (ha : env.authHeader = some a) (hne : ¬ a = "")
    (hu : env.userForToken = some uid)
    (hc : env.profileCredits = some credits)
    (hp : env.body.prompt = .vstr p)
    (hv : invalidPrompt (.vstr p) = false)
    (hn : (env.body.numImages).getD 1 = n)
    (hbal : n ≤ credits)
    (hj : j < n.toNat)
    (hpre : ∀ i, i < j → ((env.provider i).ok = true ∧
        ((env.provider i).imageUrl).isSome = true))
    (hfail : callFails (env.provider j)) :
    (handler env).1 = .errorResp
        (if (env.provider j).ok = true then "No image generated"
         else if (env.provider j).status = 429 then
           "Rate limit exceeded. Please try again later."
         else if (env.provider j).status = 402 then
           "AI service credits exhausted. Please contact support."
         else "Failed to generate image")
    ∧ (handler env).2.providerPrompts.length = j + 1
    ∧ (handler env).2.balanceWriteAttempt = none := by
  have hloop := genLoop_fail env.provider uid p ((env.body.style).getD "auto")
      ((env.body.aspectParam).getD "1:1") j n.toNat 0 hj
      (by simpa using hpre) (by simpa using hfail)
  simp only [Nat.zero_add] at hloop
  rw [handler_admitted env a uid credits n p ha hne hu hc hp hv hn (by omega)]
  rw [hloop]
  refine ⟨?_, by simp, rfl⟩
  simp only [failMsg, classifyFailure]

/-- Witness for provider_failure_classified at envNoUrlMid: the second
call answers 200 without an image url, so the thrown message is "No
image generated" after two calls. -/
theorem provider_failure_classified_witness :
    (handler envNoUrlMid).1 = .errorResp
        (if (envNoUrlMid.provider 1).ok = true then "No image generated"
         else if (envNoUrlMid.provider 1).status = 429 then
           "Rate limit exceeded. Please try again later."
         else if (envNoUrlMid.provider 1).status = 402 then
           "AI service credits exhausted. Please contact support."
         else "Failed to generate image")
    ∧ (handler envNoUrlMid).2.providerPrompts.length = 2
    ∧ (handler envNoUrlMid).2.balanceWriteAttempt = none :=
  provider_failure_classified envNoUrlMid "Bearer t" "uid" 5 2 "a cat" 1
    rfl (by decide) rfl rfl rfl (by decide) rfl (by decide) (by decide)
    (by decide) (Or.inr rfl)

/-- C7: on a fully successful request, every prompt sent to the provider
is the original prompt with the fixed suffix of the selected style
appended when the style is not "auto" and the unchanged prompt when it
is, while every persisted history row stores the original prompt. -/
theorem style_suffix_sent_original_stored (env : Env) (a uid : String)
    (credits n : Int) (p : String)
    (ha : env.authHeader = some a) (hne : ¬ a = "")
    (hu : env.userForToken = some uid)
    (hc : env.profileCredits = some credits)
    (hp : env.body.prompt = .vstr p)
    (hv : invalidPrompt (.vstr p) = false)
    (hn : (env.body.numImages).getD 1 = n)
    (hbal : n ≤ credits)
    (hprov : ∀ i, i < n.toNat → ((env.provider i).ok = true ∧
        ((env.provider i).imageUrl).isSome = true)) :
    (handler env).2.providerPrompts = List.replicate n.toNat
        (if (env.body.style).getD "auto" ≠ "auto" then
          p ++ ", " ++ (stylePrompts ((env.body.style).getD "auto")).getD ""
         else p)
    ∧ (∀ row ∈ (handler env).2.history, row.prompt = p) := by
  have hloop := genLoop_allOk env.provider uid p ((env.body.style).getD "auto")
      ((env.body.aspectParam).getD "1:1") n.toNat 0
      (by simpa using hprov)
  simp only [Nat.zero_add] at hloop
  rw [handler_admitted env a uid credits n p ha hne hu hc hp hv hn (by omega)]
  rw [hloop]
  refine ⟨rfl, ?_⟩
  intro row hrow
  simp only [List.mem_map, List.mem_range] at hrow
  obtain ⟨i, _, hi⟩ := hrow
  rw [← hi]
  rfl

/-- Witness for style_suffix_sent_original_stored at envAnime: the one
provider call receives the prompt with the anime suffix appended while
the history row stores "a cat". -/
theorem style_suffix_sent_original_stored_witness :
    (handler envAnime).2.providerPrompts = List.replicate (Int.toNat 1)
        (if (envAnime.body.style).getD "auto" ≠ "auto" then
          "a cat" ++ ", " ++ (stylePrompts ((envAnime.body.style).getD "auto")).getD ""
         else "a cat")
    ∧ (∀ row ∈ (handler envAnime).2.history, row.prompt = "a cat") :=
  style_suffix_sent_original_stored envAnime "Bearer t" "uid" 5 1 "a cat"
    rfl (by decide) rfl rfl rfl (by decide) rfl (by decide)
    (fun i _ => ⟨rfl, rfl⟩)

/-- C8: an authenticated request whose prompt is missing, not a string,
or empty after trimming whitespace fails with the generic 500 error
"Invalid prompt"; the only side effect on record is the balance read,
which precedes the validation. -/
theorem invalid_prompt_rejected (env : Env) (a uid : String) (credits : Int)
    (ha : env.authHeader = some a) (hne : ¬ a = "")
    (hu : env.userForToken = some uid)
    (hc : env.profileCredits = some credits)
    (hbad : env.body.prompt = .vundefined ∨ (env.body.prompt).isString = false ∨
        trimmedLength (env.body.prompt).asString = 0) :
    (handler env).1 = .errorResp "Invalid prompt"
    ∧ responseStatus (handler env).1 = 500
    ∧ (handler env).2 = noCallEffects true := by
  have hinv : invalidPrompt env.body.prompt = true := by
    rcases hbad with h | h | h
    · rw [h]
      rfl
    · simp [invalidPrompt, h]
    · simp [invalidPrompt, h]
  have hstep : handler env = (.errorResp "Invalid prompt", noCallEffects true) := by
    simp only [handler, ha, hu, hc]
    rw [if_neg hne]
    simp only [hinv, if_true]
  rw [hstep]
  exact ⟨rfl, rfl, rfl⟩

/-- Witness for invalid_prompt_rejected at envBlankPrompt: a
whitespace-only prompt yields the 500 "Invalid prompt" error after only
the balance read. -/
theorem invalid_prompt_rejected_witness :
    (handler envBlankPrompt).1 = .errorResp "Invalid prompt"
    ∧ responseStatus (handler envBlankPrompt).1 = 500
    ∧ (handler envBlankPrompt).2 = noCallEffects true :=
  invalid_prompt_rejected envBlankPrompt "Bearer t" "uid" 5
    rfl (by decide) rfl rfl (Or.inr (Or.inr (by decide)))

/-- C9: an authenticated request with a valid prompt, a non-negative
balance and numImages = 0 passes the admission check, makes no provider
call, writes no history row, leaves the balance at its prior value (the
settle step rewrites the unchanged value), and returns success with an
empty imageUrls list. -/
theorem zero_images_trivial_success (env : Env) (a uid : String) (credits : Int)
    (p : String)
    (ha : env.authHeader = some a) (hne : ¬ a = "")
    (hu : env.userForToken = some uid)
    (hc : env.profileCredits = some credits)
    (hp : env.body.prompt = .vstr p)
    (hv : invalidPrompt (.vstr p) = false)
    (hnum : env.body.numImages = some 0)
    (hcred : 0 ≤ credits) :
    (handler env).1 = .success []
    ∧ responseStatus (handler env).1 = 200
    ∧ responseBody (handler env).1 = .jsonUrls []
    ∧ (handler env).2.providerPrompts = []
    ∧ (handler env).2.history = []
    ∧ (handler env).2.balanceWriteAttempt = some (credits - 0)
    ∧ settledBalance credits (handler env).2 env.updateFails = credits := by
  have hn : (env.body.numImages).getD 1 = 0 := by
    rw [hnum]
    rfl
  rw [handler_admitted env a uid credits 0 p ha hne hu hc hp hv hn (by omega)]
  refine ⟨rfl, rfl, rfl, rfl, rfl, rfl, ?_⟩
  show (if env.updateFails = true then credits else credits - 0) = credits
  cases env.updateFails <;> simp

/-- Witness for zero_images_trivial_success at envZeroImages: zero
requested images at balance 5 yield success with no references and
balance 5. -/
theorem zero_images_trivial_success_witness :
    (handler envZeroImages).1 = .success []
    ∧ (handler envZeroImages).2.providerPrompts = []
    ∧ (handler envZeroImages).2.history = []
    ∧ settledBalance 5 (handler envZeroImages).2 envZeroImages.updateFails = 5 := by
  have h := zero_images_trivial_success envZeroImages "Bearer t" "uid" 5 "a cat"
    rfl (by decide) rfl rfl rfl (by decide) rfl (by decide)
  exact ⟨h.1, h.2.2.2.1, h.2.2.2.2.1, h.2.2.2.2.2.2⟩

/-- C10: an authenticated request with a valid prompt, a non-negative
balance, a negative numImages and a succeeding settle write passes the
admission check, makes no provider call, writes no history row, returns
success with an empty imageUrls list, and writes balance - numImages,
strictly increasing the stored balance. -/
theorem negative_request_inflates_balance (env : Env) (a uid : String)
    (credits m : Int) (p : String)
    (ha : env.authHeader = some a) (hne : ¬ a = "")
    (hu : env.userForToken = some uid)
    (hc : env.profileCredits = some credits)
    (hp : env.body.prompt = .vstr p)
    (hv : invalidPrompt (.vstr p) = false)
    (hnum : env.body.numImages = some m) (hm : m < 0)
    (hcred : 0 ≤ credits)
    (hupd : env.updateFails = false) :
    (handler env).1 = .success []
    ∧ (handler env).2.providerPrompts = []
    ∧ (handler env).2.history = []
    ∧ (handler env).2.balanceWriteAttempt = some (credits - m)
    ∧ settledBalance credits (handler env).2 env.updateFails = credits - m
    ∧ credits < credits - m := by
  have hn : (env.body.numImages).getD 1 = m := by
    rw [hnum]
    rfl
  have htn : m.toNat = 0 := Int.toNat_of_nonpos (le_of_lt hm)
  rw [handler_admitted env a uid credits m p ha hne hu hc hp hv hn (by omega)]
  rw [htn]
  refine ⟨rfl, rfl, rfl, rfl, ?_, by omega⟩
  show (if env.updateFails = true then credits else credits - m) = credits - m
  rw [hupd]
  simp

/-- Witness for negative_request_inflates_balance at envNegImages:
numImages = -1 at balance 5 yields success with no references and a
stored balance of 6. -/
theorem negative_request_inflates_balance_witness :
    (handler envNegImages).1 = .success []
    ∧ (handler envNegImages).2.providerPrompts = []
    ∧ (handler envNegImages).2.history = []
    ∧ settledBalance 5 (handler envNegImages).2 envNegImages.updateFails = 5 - (-1)
    ∧ (5:Int) < 5 - (-1) := by
  have h := negative_request_inflates_balance envNegImages "Bearer t" "uid" 5 (-1)
    "a cat" rfl (by decide) rfl rfl rfl (by decide) rfl (by decide) (by decide) rfl
  exact ⟨h.1, h.2.1, h.2.2.1, h.2.2.2.2.1, h.2.2.2.2.2⟩

end NexusGen
